import Mathlib

/-!
Verification of the project-scaffolding script `00_project_setup.py`.

The script's only operation, `create_project_structure(base_path)`, works on
the filesystem subtree rooted at the base path.  We model that subtree as an
association list from relative paths (lists of path components) to entries
(directory, or file with content).  The base path itself is the root of the
model and always exists as a directory.

Each filesystem primitive used by the script is modelled separately:
  * `Path.mkdir(parents=True, exist_ok=True)`  →  `mkdirParents`
  * `Path.exists()` guard + `Path.touch()` / `Path.write_text(...)`
    (create only if absent)                    →  `writeFileIfAbsent`
  * unconditional `Path.write_text(...)`       →  `write_text`
A failing primitive raises an exception in Python and the process aborts,
leaving every earlier effect on disk; we model this by returning
`Except.error (err, partialState)`, so the state at the moment of failure is
observable.  Console output of the script is not part of the model.
-/

namespace ProjectSetup

/-- A filesystem entry: a directory, or a file with its text content. -/
inductive Entry : Type
  | dir : Entry
  | file : String → Entry
deriving DecidableEq, Repr

/-- A path relative to the base path, as a list of components. -/
abbrev Path : Type := List String

/-- The filesystem subtree under the base path: an association list from
relative paths to entries.  The base path itself (the empty path) is always a
directory and is not listed. -/
abbrev FS : Type := List (Path × Entry)

/-- Errors raised by the modelled filesystem primitives, paired with the
filesystem state at the moment the error is raised. -/
inductive FsError : Type
  | collision : Path → FsError
  | missingParent : Path → FsError
deriving DecidableEq, Repr

/-- Look up the entry at a path (first match in the association list). -/
def lookupFS : FS → Path → Option Entry
  | [], _ => none
  | (q, e) :: rest, p => if q = p then some e else lookupFS rest p

/-- Set the entry at a path: replace an existing binding in place, or append
a new binding at the end. -/
def setEntry : FS → Path → Entry → FS
  | [], p, e => [(p, e)]
  | (q, e0) :: rest, p, e =>
    if q = p then (q, e) :: rest else (q, e0) :: setEntry rest p e

/-- Whether the parent of `p` is a directory (the root, i.e. the base path
itself, always is). -/
def parentIsDir (fs : FS) (p : Path) : Bool :=
  match p.dropLast with
  | [] => true
  | pp =>
    match lookupFS fs pp with
    | some Entry.dir => true
    | _ => false

/-- One step of `mkdir`: succeed silently if the path is already a directory,
fail if a non-directory occupies it, create it otherwise. -/
def mkdirStep (fs : FS) (q : Path) : Except (FsError × FS) FS :=
  match lookupFS fs q with
  | some Entry.dir => Except.ok fs
  | some (Entry.file _) => Except.error (FsError.collision q, fs)
  | none => Except.ok (setEntry fs q Entry.dir)

/-- Run `mkdirStep` on each path of a list in order, stopping at the first
error. -/
def mkdirList : FS → List Path → Except (FsError × FS) FS
  | fs, [] => Except.ok fs
  | fs, q :: rest =>
    match mkdirStep fs q with
    | Except.ok fs1 => mkdirList fs1 rest
    | Except.error err => Except.error err

/-- The non-empty prefixes of a path, shortest first, continuing from an
accumulated prefix `acc`. -/
def prefixesFrom (acc : Path) : Path → List Path
  | [] => []
  | c :: rest => (acc ++ [c]) :: prefixesFrom (acc ++ [c]) rest

/-- The non-empty prefixes of a path, shortest first. -/
def pathPrefixes (p : Path) : List Path := prefixesFrom [] p

/-- `Path.mkdir(parents=True, exist_ok=True)`: create the directory and every
missing intermediate parent, failing on a collision with a non-directory. -/
def mkdirParents (fs : FS) (p : Path) : Except (FsError × FS) FS :=
  mkdirList fs (pathPrefixes p)

/-- `if not path.exists(): path.touch()` (with `c = ""`), and likewise
`if not init_file.exists(): init_file.write_text(c)`: create a file with
content `c` only when no entry exists at the path. -/
def writeFileIfAbsent (fs : FS) (q : Path) (c : String) : Except (FsError × FS) FS :=
  match lookupFS fs q with
  | some _ => Except.ok fs
  | none =>
    if parentIsDir fs q then Except.ok (setEntry fs q (Entry.file c))
    else Except.error (FsError.missingParent q, fs)

/-- Unconditional `path.write_text(c)`: overwrite an existing file, create a
missing one, fail if the path is a directory. -/
def write_text (fs : FS) (q : Path) (c : String) : Except (FsError × FS) FS :=
  match lookupFS fs q with
  | some Entry.dir => Except.error (FsError.collision q, fs)
  | some (Entry.file _) => Except.ok (setEntry fs q (Entry.file c))
  | none =>
    if parentIsDir fs q then Except.ok (setEntry fs q (Entry.file c))
    else Except.error (FsError.missingParent q, fs)

/-- The fixed ordered list of directories from the script. -/
def directories : List Path :=
  [["data", "raw"],
   ["data", "processed"],
   ["notebooks"],
   ["results", "figures"],
   ["results", "tables"],
   ["src"]]

/-- The loop body: `dir_path.mkdir(parents=True, exist_ok=True)` followed by
the guarded creation of the empty `.gitkeep` marker. -/
def processDirectory (fs : FS) (d : Path) : Except (FsError × FS) FS :=
  match mkdirParents fs d with
  | Except.ok fs1 => writeFileIfAbsent fs1 (d ++ [".gitkeep"]) ""
  | Except.error err => Except.error err

/-- The script's `for directory in directories` loop. -/
def scaffoldDirs : FS → List Path → Except (FsError × FS) FS
  | fs, [] => Except.ok fs
  | fs, d :: rest =>
    match processDirectory fs d with
    | Except.ok fs1 => scaffoldDirs fs1 rest
    | Except.error err => Except.error err

/-- The fixed stub written to `src/__init__.py` when it is absent. -/
def initContent : String :=
  "\"\"\"\n" ++
  "src - Helper functions for scRNA-seq analysis\n" ++
  "\n" ++
  "This module contains utility functions for:\n" ++
  "- Quality Control (QC)\n" ++
  "- Normalization and preprocessing\n" ++
  "- Clustering and cell annotation\n" ++
  "- Data visualization\n" ++
  "- Differential expression analysis\n" ++
  "\"\"\"\n"

/-- The fixed template unconditionally written to `README.md`. -/
def readmeContent : String :=
  "# 🧬 Melanoma Single-Cell Landscape\n" ++
  "\n" ++
  "## Tumor Heterogeneity Analysis via scRNA-seq\n" ++
  "\n" ++
  "### 📋 Objective\n" ++
  "Analyze scRNA-seq data from melanoma patients to identify **exhausted T cell** \n" ++
  "populations associated with **immunotherapy resistance**.\n" ++
  "\n" ++
  "### 📊 Dataset\n" ++
  "- **Primary Study**: Jerby-Arnon et al. (Cell, 2018)\n" ++
  "- **GEO Accession**: [GSE115978](https://www.ncbi.nlm.nih.gov/geo/query/acc.cgi?acc=GSE115978)\n" ++
  "- **Alternative**: Tirosh et al. 2016 (GSE72056)\n" ++
  "\n" ++
  "### 🛠️ Technology Stack\n" ++
  "- **Python 3.8+**\n" ++
  "- **Scanpy** - Single-cell analysis\n" ++
  "- **AnnData** - Data structure\n" ++
  "- **Matplotlib/Seaborn** - Visualization\n" ++
  "- **Pandas** - Data manipulation\n" ++
  "\n" ++
  "### 📂 Project Structure\n" ++
  "```\n" ++
  "├── data/\n" ++
  "│   ├── raw/          # Original count files (.mtx, .h5ad)\n" ++
  "│   └── processed/    # Processed and filtered AnnData objects\n" ++
  "├── notebooks/        # Step-by-step analysis\n" ++
  "│   ├── 01_QC.ipynb\n" ++
  "│   ├── 02_Clustering.ipynb\n" ++
  "│   └── ...\n" ++
  "├── results/\n" ++
  "│   ├── figures/      # High-quality plots (UMAP, DotPlots)\n" ++
  "│   └── tables/       # Gene markers (DEGs)\n" ++
  "├── src/              # Helper functions\n" ++
  "└── README.md\n" ++
  "```\n" ++
  "\n" ++
  "### 🔬 Analysis Pipeline\n" ++
  "1. **Quality Control (QC)**\n" ++
  "   - Filtering by detected genes\n" ++
  "   - Filtering by mitochondrial content\n" ++
  "   - Doublet removal\n" ++
  "\n" ++
  "2. **Preprocessing**\n" ++
  "   - Normalization\n" ++
  "   - Highly variable gene selection\n" ++
  "   - Scaling\n" ++
  "\n" ++
  "3. **Dimensionality Reduction**\n" ++
  "   - PCA\n" ++
  "   - UMAP\n" ++
  "\n" ++
  "4. **Clustering**\n" ++
  "   - Leiden clustering\n" ++
  "   - Cell type annotation\n" ++
  "\n" ++
  "5. **T Cell Analysis**\n" ++
  "   - Identification of exhausted populations\n" ++
  "   - Markers: PD-1, TIM-3, LAG-3, TIGIT\n" ++
  "\n" ++
  "### 📈 QC Metrics\n" ++
  "| Metric | Description | Typical Threshold |\n" ++
  "|--------|-------------|-------------------|\n" ++
  "| `n_genes` | Genes detected per cell | 200-5000 |\n" ++
  "| `n_counts` | Total UMIs per cell | Variable |\n" ++
  "| `pct_counts_mt` | % mitochondrial counts | <20% |\n" ++
  "\n" ++
  "### 📚 References\n" ++
  "1. Jerby-Arnon L, et al. (2018). A Cancer Cell Program Promotes T Cell Exclusion \n" ++
  "   and Resistance to Checkpoint Blockade. *Cell*.\n" ++
  "2. Tirosh I, et al. (2016). Dissecting the multicellular ecosystem of metastatic \n" ++
  "   melanoma by single-cell RNA-seq. *Science*.\n" ++
  "\n" ++
  "---\n" ++
  "*Project developed as part of Bioinformatics Portfolio*\n"

/-- The relative path of the package stub `src/__init__.py`. -/
def initPath : Path := ["src", "__init__.py"]

/-- The relative path of `README.md`. -/
def readmePath : Path := ["README.md"]

/-- `create_project_structure(base_path)`: the whole scaffolding operation on
the subtree rooted at the base path. -/
def create_project_structure (fs : FS) : Except (FsError × FS) FS :=
  match scaffoldDirs fs directories with
  | Except.ok fs1 =>
    match writeFileIfAbsent fs1 initPath initContent with
    | Except.ok fs2 => write_text fs2 readmePath readmeContent
    | Except.error err => Except.error err
  | Except.error err => Except.error err

/-- The filesystem produced by running the script on an empty base directory,
in creation order. -/
def scaffoldedFS : FS :=
  [(["data"], Entry.dir),
   (["data", "raw"], Entry.dir),
   (["data", "raw", ".gitkeep"], Entry.file ""),
   (["data", "processed"], Entry.dir),
   (["data", "processed", ".gitkeep"], Entry.file ""),
   (["notebooks"], Entry.dir),
   (["notebooks", ".gitkeep"], Entry.file ""),
   (["results"], Entry.dir),
   (["results", "figures"], Entry.dir),
   (["results", "figures", ".gitkeep"], Entry.file ""),
   (["results", "tables"], Entry.dir),
   (["results", "tables", ".gitkeep"], Entry.file ""),
   (["src"], Entry.dir),
   (["src", ".gitkeep"], Entry.file ""),
   (["src", "__init__.py"], Entry.file initContent),
   (["README.md"], Entry.file readmeContent)]

/-- A base directory that already holds a non-empty `.gitkeep` marker inside
an existing `data/raw`. -/
def preMarkerFS : FS :=
  [(["data"], Entry.dir),
   (["data", "raw"], Entry.dir),
   (["data", "raw", ".gitkeep"], Entry.file "x")]

/-- The result of running the script on `preMarkerFS`: the non-empty marker
is kept as is, everything else is scaffolded. -/
def preMarkerOutFS : FS :=
  [(["data"], Entry.dir),
   (["data", "raw"], Entry.dir),
   (["data", "raw", ".gitkeep"], Entry.file "x"),
   (["data", "processed"], Entry.dir),
   (["data", "processed", ".gitkeep"], Entry.file ""),
   (["notebooks"], Entry.dir),
   (["notebooks", ".gitkeep"], Entry.file ""),
   (["results"], Entry.dir),
   (["results", "figures"], Entry.dir),
   (["results", "figures", ".gitkeep"], Entry.file ""),
   (["results", "tables"], Entry.dir),
   (["results", "tables", ".gitkeep"], Entry.file ""),
   (["src"], Entry.dir),
   (["src", ".gitkeep"], Entry.file ""),
   (["src", "__init__.py"], Entry.file initContent),
   (["README.md"], Entry.file readmeContent)]

/-- A base directory where a plain file occupies the `notebooks` slot. -/
def collisionFS : FS := [(["notebooks"], Entry.file "not a directory")]

/-- The partial state at the moment the script fails on `collisionFS`: the
`data` subtree was already created and stays. -/
def collisionPartialFS : FS :=
  [(["notebooks"], Entry.file "not a directory"),
   (["data"], Entry.dir),
   (["data", "raw"], Entry.dir),
   (["data", "raw", ".gitkeep"], Entry.file ""),
   (["data", "processed"], Entry.dir),
   (["data", "processed", ".gitkeep"], Entry.file "")]

/-- A base directory that already holds `src` with a zero-byte
`src/__init__.py`. -/
def emptyInitFS : FS :=
  [(["src"], Entry.dir),
   (["src", "__init__.py"], Entry.file "")]

/-- The result of running the script on `emptyInitFS`: the empty stub file is
kept empty. -/
def emptyInitOutFS : FS :=
  [(["src"], Entry.dir),
   (["src", "__init__.py"], Entry.file ""),
   (["data"], Entry.dir),
   (["data", "raw"], Entry.dir),
   (["data", "raw", ".gitkeep"], Entry.file ""),
   (["data", "processed"], Entry.dir),
   (["data", "processed", ".gitkeep"], Entry.file ""),
   (["notebooks"], Entry.dir),
   (["notebooks", ".gitkeep"], Entry.file ""),
   (["results"], Entry.dir),
   (["results", "figures"], Entry.dir),
   (["results", "figures", ".gitkeep"], Entry.file ""),
   (["results", "tables"], Entry.dir),
   (["results", "tables", ".gitkeep"], Entry.file ""),
   (["src", ".gitkeep"], Entry.file ""),
   (["README.md"], Entry.file readmeContent)]

/-! ## Basic lemmas about the filesystem model -/

/-- Setting an entry changes the lookup at that path and nowhere else. -/
theorem lookupFS_setEntry (fs : FS) (q : Path) (e : Entry) (r : Path) :
    lookupFS (setEntry fs q e) r = if q = r then some e else lookupFS fs r := by
  induction fs with
  | nil =>
    by_cases h : q = r <;> simp [setEntry, lookupFS, h]
  | cons hd tl ih =>
    obtain ⟨p0, e0⟩ := hd
    by_cases hpq : p0 = q
    · subst hpq
      by_cases hpr : p0 = r <;> simp [setEntry, lookupFS, hpr]
    · by_cases hpr : p0 = r
      · subst hpr
        have hqr : q ≠ p0 := fun h => hpq h.symm
        simp [setEntry, lookupFS, hpq, hqr]
      · simp [setEntry, lookupFS, hpq, hpr, ih]

/-- Re-setting the entry a path already holds leaves the state unchanged. -/
theorem setEntry_self (fs : FS) (q : Path) (e : Entry) (h : lookupFS fs q = some e) :
    setEntry fs q e = fs := by
  induction fs with
  | nil => simp [lookupFS] at h
  | cons hd tl ih =>
    obtain ⟨p0, e0⟩ := hd
    by_cases hpq : p0 = q
    · subst hpq
      simp [lookupFS] at h
      simp [setEntry, h]
    · simp [lookupFS, hpq] at h
      simp [setEntry, hpq, ih h]

/-! ## Lemmas about `mkdirStep` -/

/-- A successful `mkdirStep` keeps every existing entry. -/
theorem mkdirStep_pres_entry {fs fs' : FS} {q : Path}
    (hstep : mkdirStep fs q = Except.ok fs')
    {r : Path} {e : Entry} (h : lookupFS fs r = some e) : lookupFS fs' r = some e := by
  cases h0 : lookupFS fs q with
  | none =>
    simp [mkdirStep, h0] at hstep
    subst hstep
    rw [lookupFS_setEntry]
    by_cases hqr : q = r
    · subst hqr; rw [h0] at h; exact absurd h (by simp)
    · simp [hqr, h]
  | some e0 =>
    cases e0 with
    | dir => simp [mkdirStep, h0] at hstep; subst hstep; exact h
    | file c => simp [mkdirStep, h0] at hstep

/-- After a successful `mkdirStep`, the target is a directory. -/
theorem mkdirStep_dir_self {fs fs' : FS} {q : Path}
    (hstep : mkdirStep fs q = Except.ok fs') : lookupFS fs' q = some Entry.dir := by
  cases h0 : lookupFS fs q with
  | none => simp [mkdirStep, h0] at hstep; subst hstep; simp [lookupFS_setEntry]
  | some e0 =>
    cases e0 with
    | dir => simp [mkdirStep, h0] at hstep; subst hstep; exact h0
    | file c => simp [mkdirStep, h0] at hstep

/-- A successful `mkdirStep` changes no path other than its target. -/
theorem mkdirStep_ne {fs fs' : FS} {q : Path}
    (hstep : mkdirStep fs q = Except.ok fs')
    {r : Path} (hqr : q ≠ r) : lookupFS fs' r = lookupFS fs r := by
  cases h0 : lookupFS fs q with
  | none =>
    simp [mkdirStep, h0] at hstep
    subst hstep
    simp [lookupFS_setEntry, hqr]
  | some e0 =>
    cases e0 with
    | dir => simp [mkdirStep, h0] at hstep; subst hstep; rfl
    | file c => simp [mkdirStep, h0] at hstep

/-- `mkdirStep` on an existing directory is a no-op. -/
theorem mkdirStep_of_dir {fs : FS} {q : Path} (h : lookupFS fs q = some Entry.dir) :
    mkdirStep fs q = Except.ok fs := by
  simp [mkdirStep, h]

/-! ## Lemmas about `mkdirList` -/

/-- A successful `mkdirList` keeps every existing entry. -/
theorem mkdirList_pres_entry {L : List Path} :
    ∀ {fs fs' : FS}, mkdirList fs L = Except.ok fs' →
    ∀ {r : Path} {e : Entry}, lookupFS fs r = some e → lookupFS fs' r = some e := by
  induction L with
  | nil =>
    intro fs fs' h r e hr
    simp [mkdirList] at h
    subst h; exact hr
  | cons q rest ih =>
    intro fs fs' h r e hr
    cases hstep : mkdirStep fs q with
    | ok fs1 =>
      simp only [mkdirList, hstep] at h
      exact ih h (mkdirStep_pres_entry hstep hr)
    | error err => simp [mkdirList, hstep] at h

/-- After a successful `mkdirList`, every listed path is a directory. -/
theorem mkdirList_dirs {L : List Path} :
    ∀ {fs fs' : FS}, mkdirList fs L = Except.ok fs' →
    ∀ q ∈ L, lookupFS fs' q = some Entry.dir := by
  induction L with
  | nil => intro fs fs' _ q hq; simp at hq
  | cons q0 rest ih =>
    intro fs fs' h q hq
    cases hstep : mkdirStep fs q0 with
    | ok fs1 =>
      simp only [mkdirList, hstep] at h
      rcases List.mem_cons.mp hq with rfl | hq'
      · exact mkdirList_pres_entry h (mkdirStep_dir_self hstep)
      · exact ih h q hq'
    | error err => simp [mkdirList, hstep] at h

/-- A successful `mkdirList` changes no path outside its list. -/
theorem mkdirList_ne {L : List Path} :
    ∀ {fs fs' : FS}, mkdirList fs L = Except.ok fs' →
    ∀ {r : Path}, r ∉ L → lookupFS fs' r = lookupFS fs r := by
  induction L with
  | nil =>
    intro fs fs' h r _
    simp [mkdirList] at h
    subst h; rfl
  | cons q0 rest ih =>
    intro fs fs' h r hr
    cases hstep : mkdirStep fs q0 with
    | ok fs1 =>
      simp only [mkdirList, hstep] at h
      have hne : q0 ≠ r := fun hq => hr (hq ▸ List.mem_cons_self q0 rest)
      rw [ih h (fun hmem => hr (List.mem_cons_of_mem q0 hmem))]
      exact mkdirStep_ne hstep hne
    | error err => simp [mkdirList, hstep] at h

/-- `mkdirList` over paths that are already directories is a no-op. -/
theorem mkdirList_noop {L : List Path} :
    ∀ {fs : FS}, (∀ q ∈ L, lookupFS fs q = some Entry.dir) →
    mkdirList fs L = Except.ok fs := by
  induction L with
  | nil => intro fs _; simp [mkdirList]
  | cons q0 rest ih =>
    intro fs hall
    have h0 : mkdirStep fs q0 = Except.ok fs :=
      mkdirStep_of_dir (hall q0 (List.mem_cons_self q0 rest))
    simp only [mkdirList, h0]
    exact ih (fun q hq => hall q (List.mem_cons_of_mem q0 hq))

/-! ## Lemmas about `writeFileIfAbsent` -/

/-- A successful `writeFileIfAbsent` keeps every existing entry (including an
existing entry at its own target, which it refuses to overwrite). -/
theorem writeFileIfAbsent_pres_entry {fs fs' : FS} {q : Path} {c : String}
    (hw : writeFileIfAbsent fs q c = Except.ok fs')
    {r : Path} {e : Entry} (h : lookupFS fs r = some e) : lookupFS fs' r = some e := by
  cases h0 : lookupFS fs q with
  | some e0 =>
    simp [writeFileIfAbsent, h0] at hw
    subst hw; exact h
  | none =>
    by_cases hp : parentIsDir fs q
    · simp [writeFileIfAbsent, h0, hp] at hw
      subst hw
      rw [lookupFS_setEntry]
      by_cases hqr : q = r
      · subst hqr; rw [h0] at h; exact absurd h (by simp)
      · simp [hqr, h]
    · simp [writeFileIfAbsent, h0, hp] at hw

/-- A successful `writeFileIfAbsent` changes no path other than its target. -/
theorem writeFileIfAbsent_ne {fs fs' : FS} {q : Path} {c : String}
    (hw : writeFileIfAbsent fs q c = Except.ok fs')
    {r : Path} (hqr : q ≠ r) : lookupFS fs' r = lookupFS fs r := by
  cases h0 : lookupFS fs q with
  | some e0 =>
    simp [writeFileIfAbsent, h0] at hw
    subst hw; rfl
  | none =>
    by_cases hp : parentIsDir fs q
    · simp [writeFileIfAbsent, h0, hp] at hw
      subst hw
      simp [lookupFS_setEntry, hqr]
    · simp [writeFileIfAbsent, h0, hp] at hw

/-- When the target was absent, a successful `writeFileIfAbsent` has created
a file with exactly the given content. -/
theorem writeFileIfAbsent_created {fs fs' : FS} {q : Path} {c : String}
    (hw : writeFileIfAbsent fs q c = Except.ok fs')
    (h0 : lookupFS fs q = none) : lookupFS fs' q = some (Entry.file c) := by
  by_cases hp : parentIsDir fs q
  · simp [writeFileIfAbsent, h0, hp] at hw
    subst hw
    simp [lookupFS_setEntry]
  · simp [writeFileIfAbsent, h0, hp] at hw

/-- After a successful `writeFileIfAbsent`, some entry occupies the target. -/
theorem writeFileIfAbsent_some_self {fs fs' : FS} {q : Path} {c : String}
    (hw : writeFileIfAbsent fs q c = Except.ok fs') :
    (lookupFS fs' q).isSome := by
  cases h0 : lookupFS fs q with
  | some e0 =>
    rw [writeFileIfAbsent_pres_entry hw h0]; rfl
  | none =>
    rw [writeFileIfAbsent_created hw h0]; rfl

/-- `writeFileIfAbsent` on an occupied target is a no-op. -/
theorem writeFileIfAbsent_noop {fs : FS} {q : Path} {c : String}
    (h0 : (lookupFS fs q).isSome) : writeFileIfAbsent fs q c = Except.ok fs := by
  cases h : lookupFS fs q with
  | some e0 => simp [writeFileIfAbsent, h]
  | none => rw [h] at h0; simp at h0

/-! ## Lemmas about `write_text` -/

/-- After a successful `write_text`, the target holds exactly the written
content. -/
theorem write_text_self {fs fs' : FS} {q : Path} {c : String}
    (hw : write_text fs q c = Except.ok fs') :
    lookupFS fs' q = some (Entry.file c) := by
  cases h0 : lookupFS fs q with
  | some e0 =>
    cases e0 with
    | dir => simp [write_text, h0] at hw
    | file c0 =>
      simp [write_text, h0] at hw
      subst hw
      simp [lookupFS_setEntry]
  | none =>
    by_cases hp : parentIsDir fs q
    · simp [write_text, h0, hp] at hw
      subst hw
      simp [lookupFS_setEntry]
    · simp [write_text, h0, hp] at hw

/-- A successful `write_text` changes no path other than its target. -/
theorem write_text_ne {fs fs' : FS} {q : Path} {c : String}
    (hw : write_text fs q c = Except.ok fs')
    {r : Path} (hqr : q ≠ r) : lookupFS fs' r = lookupFS fs r := by
  cases h0 : lookupFS fs q with
  | some e0 =>
    cases e0 with
    | dir => simp [write_text, h0] at hw
    | file c0 =>
      simp [write_text, h0] at hw
      subst hw
      simp [lookupFS_setEntry, hqr]
  | none =>
    by_cases hp : parentIsDir fs q
    · simp [write_text, h0, hp] at hw
      subst hw
      simp [lookupFS_setEntry, hqr]
    · simp [write_text, h0, hp] at hw

/-- A successful `write_text` keeps every existing directory entry. -/
theorem write_text_pres_dir {fs fs' : FS} {q : Path} {c : String}
    (hw : write_text fs q c = Except.ok fs')
    {r : Path} (h : lookupFS fs r = some Entry.dir) :
    lookupFS fs' r = some Entry.dir := by
  by_cases hqr : q = r
  · subst hqr
    simp [write_text, h] at hw
  · rw [write_text_ne hw hqr]; exact h

/-- A successful `write_text` keeps every path occupied that was occupied. -/
theorem write_text_pres_some {fs fs' : FS} {q : Path} {c : String}
    (hw : write_text fs q c = Except.ok fs')
    {r : Path} (h : (lookupFS fs r).isSome) : (lookupFS fs' r).isSome := by
  by_cases hqr : q = r
  · subst hqr
    rw [write_text_self hw]; rfl
  · rw [write_text_ne hw hqr]; exact h

/-- `write_text` that rewrites a file with the content it already holds
leaves the state unchanged. -/
theorem write_text_rewrite_self {fs : FS} {q : Path} {c : String}
    (h : lookupFS fs q = some (Entry.file c)) : write_text fs q c = Except.ok fs := by
  simp [write_text, h, setEntry_self fs q (Entry.file c) h]

/-! ## Lemmas about `processDirectory` -/

/-- Decompose a successful loop body into its two primitive steps. -/
theorem processDirectory_inv {fs fs' : FS} {d : Path}
    (h : processDirectory fs d = Except.ok fs') :
    ∃ fs1, mkdirParents fs d = Except.ok fs1 ∧
      writeFileIfAbsent fs1 (d ++ [".gitkeep"]) "" = Except.ok fs' := by
  cases hm : mkdirParents fs d with
  | ok fs1 =>
    simp only [processDirectory, hm] at h
    exact ⟨fs1, rfl, h⟩
  | error err => simp [processDirectory, hm] at h

/-- A successful loop body keeps every existing entry. -/
theorem processDirectory_pres_entry {fs fs' : FS} {d : Path}
    (h : processDirectory fs d = Except.ok fs')
    {r : Path} {e : Entry} (hr : lookupFS fs r = some e) : lookupFS fs' r = some e := by
  obtain ⟨fs1, h1, h2⟩ := processDirectory_inv h
  exact writeFileIfAbsent_pres_entry h2 (mkdirList_pres_entry h1 hr)

/-- After a successful loop body, the directory and all its parents exist. -/
theorem processDirectory_dirs {fs fs' : FS} {d : Path}
    (h : processDirectory fs d = Except.ok fs')
    {r : Path} (hr : r ∈ pathPrefixes d) : lookupFS fs' r = some Entry.dir := by
  obtain ⟨fs1, h1, h2⟩ := processDirectory_inv h
  exact writeFileIfAbsent_pres_entry h2 (mkdirList_dirs h1 r hr)

/-- A successful loop body changes nothing outside the directory's parent
chain and its `.gitkeep` marker. -/
theorem processDirectory_ne {fs fs' : FS} {d : Path}
    (h : processDirectory fs d = Except.ok fs')
    {r : Path} (hr1 : r ∉ pathPrefixes d) (hr2 : r ≠ d ++ [".gitkeep"]) :
    lookupFS fs' r = lookupFS fs r := by
  obtain ⟨fs1, h1, h2⟩ := processDirectory_inv h
  rw [writeFileIfAbsent_ne h2 (fun hq => hr2 hq.symm)]
  exact mkdirList_ne h1 hr1

/-- When the marker was absent, a successful loop body has created it as an
empty file. -/
theorem processDirectory_gk_created {fs fs' : FS} {d : Path}
    (h : processDirectory fs d = Except.ok fs')
    (hnone : lookupFS fs (d ++ [".gitkeep"]) = none)
    (hout : (d ++ [".gitkeep"]) ∉ pathPrefixes d) :
    lookupFS fs' (d ++ [".gitkeep"]) = some (Entry.file "") := by
  obtain ⟨fs1, h1, h2⟩ := processDirectory_inv h
  have hnone1 : lookupFS fs1 (d ++ [".gitkeep"]) = none := by
    rw [mkdirList_ne h1 hout]; exact hnone
  exact writeFileIfAbsent_created h2 hnone1

/-- After a successful loop body, some entry occupies the marker path. -/
theorem processDirectory_gk_some {fs fs' : FS} {d : Path}
    (h : processDirectory fs d = Except.ok fs') :
    (lookupFS fs' (d ++ [".gitkeep"])).isSome := by
  obtain ⟨fs1, h1, h2⟩ := processDirectory_inv h
  exact writeFileIfAbsent_some_self h2

/-- The loop body is a no-op when the directory chain and the marker already
exist. -/
theorem processDirectory_noop {fs : FS} {d : Path}
    (hdirs : ∀ r ∈ pathPrefixes d, lookupFS fs r = some Entry.dir)
    (hgk : (lookupFS fs (d ++ [".gitkeep"])).isSome) :
    processDirectory fs d = Except.ok fs := by
  have h1 : mkdirParents fs d = Except.ok fs := mkdirList_noop hdirs
  simp only [processDirectory, h1]
  exact writeFileIfAbsent_noop hgk

/-! ## Lemmas about `scaffoldDirs` -/

/-- Decompose a successful loop over a non-empty directory list. -/
theorem scaffoldDirs_cons_inv {fs fs' : FS} {d : Path} {rest : List Path}
    (h : scaffoldDirs fs (d :: rest) = Except.ok fs') :
    ∃ fs1, processDirectory fs d = Except.ok fs1 ∧
      scaffoldDirs fs1 rest = Except.ok fs' := by
  cases hp : processDirectory fs d with
  | ok fs1 =>
    simp only [scaffoldDirs, hp] at h
    exact ⟨fs1, rfl, h⟩
  | error err => simp [scaffoldDirs, hp] at h

/-- A successful loop keeps every existing entry. -/
theorem scaffoldDirs_pres_entry {L : List Path} :
    ∀ {fs fs' : FS}, scaffoldDirs fs L = Except.ok fs' →
    ∀ {r : Path} {e : Entry}, lookupFS fs r = some e → lookupFS fs' r = some e := by
  induction L with
  | nil =>
    intro fs fs' h r e hr
    simp [scaffoldDirs] at h
    subst h; exact hr
  | cons d rest ih =>
    intro fs fs' h r e hr
    obtain ⟨fs1, h1, h2⟩ := scaffoldDirs_cons_inv h
    exact ih h2 (processDirectory_pres_entry h1 hr)

/-- After a successful loop, every processed directory and all its parents
exist as directories. -/
theorem scaffoldDirs_dirs {L : List Path} :
    ∀ {fs fs' : FS}, scaffoldDirs fs L = Except.ok fs' →
    ∀ d ∈ L, ∀ r ∈ pathPrefixes d, lookupFS fs' r = some Entry.dir := by
  induction L with
  | nil => intro fs fs' _ d hd; simp at hd
  | cons d0 rest ih =>
    intro fs fs' h d hd r hr
    obtain ⟨fs1, h1, h2⟩ := scaffoldDirs_cons_inv h
    rcases List.mem_cons.mp hd with rfl | hd'
    · exact scaffoldDirs_pres_entry h2 (processDirectory_dirs h1 hr)
    · exact ih h2 d hd' r hr

/-- A successful loop changes nothing outside the parent chains and markers
of its directory list. -/
theorem scaffoldDirs_ne {L : List Path} :
    ∀ {fs fs' : FS}, scaffoldDirs fs L = Except.ok fs' →
    ∀ {r : Path}, (∀ d ∈ L, r ∉ pathPrefixes d ∧ r ≠ d ++ [".gitkeep"]) →
    lookupFS fs' r = lookupFS fs r := by
  induction L with
  | nil =>
    intro fs fs' h r _
    simp [scaffoldDirs] at h
    subst h; rfl
  | cons d0 rest ih =>
    intro fs fs' h r hside
    obtain ⟨fs1, h1, h2⟩ := scaffoldDirs_cons_inv h
    have hd0 := hside d0 (List.mem_cons_self d0 rest)
    rw [ih h2 (fun d hd => hside d (List.mem_cons_of_mem d0 hd))]
    exact processDirectory_ne h1 hd0.1 hd0.2

/-- After a successful loop, some entry occupies each processed directory's
marker path. -/
theorem scaffoldDirs_gk_some {L : List Path} :
    ∀ {fs fs' : FS}, scaffoldDirs fs L = Except.ok fs' →
    ∀ d ∈ L, (lookupFS fs' (d ++ [".gitkeep"])).isSome := by
  induction L with
  | nil => intro fs fs' _ d hd; simp at hd
  | cons d0 rest ih =>
    intro fs fs' h d hd
    obtain ⟨fs1, h1, h2⟩ := scaffoldDirs_cons_inv h
    rcases List.mem_cons.mp hd with rfl | hd'
    · cases he : lookupFS fs1 (d ++ [".gitkeep"]) with
      | some e => rw [scaffoldDirs_pres_entry h2 he]; rfl
      | none =>
        have := processDirectory_gk_some h1
        rw [he] at this
        simp at this
    · exact ih h2 d hd'

/-- When a directory's marker is absent at the start, the loop creates it as
an empty file, provided the marker path collides with no other touched
path. -/
theorem scaffoldDirs_gk_created {L : List Path} :
    ∀ {fs fs' : FS} {d : Path}, scaffoldDirs fs L = Except.ok fs' → d ∈ L →
    (∀ d' ∈ L, (d ++ [".gitkeep"]) ∉ pathPrefixes d' ∧
      (d' ≠ d → (d ++ [".gitkeep"]) ≠ d' ++ [".gitkeep"])) →
    lookupFS fs (d ++ [".gitkeep"]) = none →
    lookupFS fs' (d ++ [".gitkeep"]) = some (Entry.file "") := by
  induction L with
  | nil => intro fs fs' d _ hd; simp at hd
  | cons d0 rest ih =>
    intro fs fs' d h hd hside hnone
    obtain ⟨fs1, h1, h2⟩ := scaffoldDirs_cons_inv h
    by_cases hd0 : d0 = d
    · subst hd0
      have hcreated : lookupFS fs1 (d0 ++ [".gitkeep"]) = some (Entry.file "") :=
        processDirectory_gk_created h1 hnone (hside d0 (List.mem_cons_self d0 rest)).1
      exact scaffoldDirs_pres_entry h2 hcreated
    · have hd' : d ∈ rest := by
        rcases List.mem_cons.mp hd with heq | hmem
        · exact absurd heq.symm hd0
        · exact hmem
      have hside0 := hside d0 (List.mem_cons_self d0 rest)
      have hnone1 : lookupFS fs1 (d ++ [".gitkeep"]) = none := by
        rw [processDirectory_ne h1 hside0.1 (hside0.2 hd0)]
        exact hnone
      exact ih h2 hd' (fun d' hm => hside d' (List.mem_cons_of_mem d0 hm)) hnone1

/-- The loop is a no-op when every directory chain and marker already
exists. -/
theorem scaffoldDirs_noop {L : List Path} :
    ∀ {fs : FS},
    (∀ d ∈ L, (∀ r ∈ pathPrefixes d, lookupFS fs r = some Entry.dir) ∧
      (lookupFS fs (d ++ [".gitkeep"])).isSome) →
    scaffoldDirs fs L = Except.ok fs := by
  induction L with
  | nil => intro fs _; simp [scaffoldDirs]
  | cons d0 rest ih =>
    intro fs hall
    have h0 := hall d0 (List.mem_cons_self d0 rest)
    have hp : processDirectory fs d0 = Except.ok fs := processDirectory_noop h0.1 h0.2
    simp only [scaffoldDirs, hp]
    exact ih (fun d hd => hall d (List.mem_cons_of_mem d0 hd))

/-! ## Lemmas about `create_project_structure` -/

/-- Decompose a successful run into its three phases: the directory loop,
the guarded stub write, the unconditional README write. -/
theorem create_inv {fs fs' : FS} (h : create_project_structure fs = Except.ok fs') :
    ∃ fs1 fs2, scaffoldDirs fs directories = Except.ok fs1 ∧
      writeFileIfAbsent fs1 initPath initContent = Except.ok fs2 ∧
      write_text fs2 readmePath readmeContent = Except.ok fs' := by
  cases h1 : scaffoldDirs fs directories with
  | ok fs1 =>
    cases h2 : writeFileIfAbsent fs1 initPath initContent with
    | ok fs2 =>
      refine ⟨fs1, fs2, rfl, h2, ?_⟩
      simpa [create_project_structure, h1, h2] using h
    | error err => simp [create_project_structure, h1, h2] at h
  | error err => simp [create_project_structure, h1] at h

/-- After a successful run, each listed directory and each of its parents is
a directory. -/
theorem create_dirs {fs fs' : FS} (h : create_project_structure fs = Except.ok fs') :
    ∀ d ∈ directories, ∀ r ∈ pathPrefixes d, lookupFS fs' r = some Entry.dir := by
  obtain ⟨fs1, fs2, h1, h2, h3⟩ := create_inv h
  intro d hd r hr
  have hdir1 := scaffoldDirs_dirs h1 d hd r hr
  have hdir2 := writeFileIfAbsent_pres_entry h2 hdir1
  exact write_text_pres_dir h3 hdir2

/-- A successful run keeps every existing entry at any path other than
`README.md`. -/
theorem create_pres_entry {fs fs' : FS} (h : create_project_structure fs = Except.ok fs')
    {r : Path} (hr : r ≠ readmePath) {e : Entry} (he : lookupFS fs r = some e) :
    lookupFS fs' r = some e := by
  obtain ⟨fs1, fs2, h1, h2, h3⟩ := create_inv h
  have he1 := scaffoldDirs_pres_entry h1 he
  have he2 := writeFileIfAbsent_pres_entry h2 he1
  rw [write_text_ne h3 (fun hq => hr hq.symm)]
  exact he2

/-- A successful run keeps every occupied path occupied. -/
theorem create_pres_some {fs fs' : FS} (h : create_project_structure fs = Except.ok fs')
    {r : Path} (hr : (lookupFS fs r).isSome) : (lookupFS fs' r).isSome := by
  obtain ⟨fs1, fs2, h1, h2, h3⟩ := create_inv h
  cases he : lookupFS fs r with
  | none => rw [he] at hr; simp at hr
  | some e =>
    have he1 := scaffoldDirs_pres_entry h1 he
    have he2 := writeFileIfAbsent_pres_entry h2 he1
    exact write_text_pres_some h3 (by rw [he2]; rfl)

/-- After a successful run, some entry occupies each directory's marker
path. -/
theorem create_gk_some {fs fs' : FS} (h : create_project_structure fs = Except.ok fs') :
    ∀ d ∈ directories, (lookupFS fs' (d ++ [".gitkeep"])).isSome := by
  obtain ⟨fs1, fs2, h1, h2, h3⟩ := create_inv h
  intro d hd
  have hs1 := scaffoldDirs_gk_some h1 d hd
  cases he : lookupFS fs1 (d ++ [".gitkeep"]) with
  | none => rw [he] at hs1; simp at hs1
  | some e =>
    have he2 := writeFileIfAbsent_pres_entry h2 he
    exact write_text_pres_some h3 (by rw [he2]; rfl)

/-- When a directory's marker is absent before a successful run, the run
creates it as an empty file. -/
theorem create_gk_created {fs fs' : FS} (h : create_project_structure fs = Except.ok fs') :
    ∀ d ∈ directories, lookupFS fs (d ++ [".gitkeep"]) = none →
    lookupFS fs' (d ++ [".gitkeep"]) = some (Entry.file "") := by
  obtain ⟨fs1, fs2, h1, h2, h3⟩ := create_inv h
  intro d hd hnone
  fin_cases hd <;>
  · have hcr := scaffoldDirs_gk_created h1 (by decide) (by decide) hnone
    have he2 := writeFileIfAbsent_pres_entry h2 hcr
    rw [write_text_ne h3 (by decide)]
    exact he2

/-- After a successful run, `README.md` holds exactly the fixed template. -/
theorem create_readme {fs fs' : FS} (h : create_project_structure fs = Except.ok fs') :
    lookupFS fs' readmePath = some (Entry.file readmeContent) := by
  obtain ⟨fs1, fs2, h1, h2, h3⟩ := create_inv h
  exact write_text_self h3

/-- The directory loop never touches `src/__init__.py`. -/
theorem scaffold_skips_initPath {fs fs' : FS}
    (h1 : scaffoldDirs fs directories = Except.ok fs') :
    lookupFS fs' initPath = lookupFS fs initPath :=
  scaffoldDirs_ne h1 (by decide)

/-- When `src/__init__.py` is absent before a successful run, the run creates
it with the fixed stub content. -/
theorem create_init_created {fs fs' : FS} (h : create_project_structure fs = Except.ok fs')
    (hnone : lookupFS fs initPath = none) :
    lookupFS fs' initPath = some (Entry.file initContent) := by
  obtain ⟨fs1, fs2, h1, h2, h3⟩ := create_inv h
  have hnone1 : lookupFS fs1 initPath = none := by
    rw [scaffold_skips_initPath h1]; exact hnone
  have he2 := writeFileIfAbsent_created h2 hnone1
  rw [write_text_ne h3 (by decide)]
  exact he2

/-- After a successful run, some entry occupies `src/__init__.py`. -/
theorem create_init_some {fs fs' : FS} (h : create_project_structure fs = Except.ok fs') :
    (lookupFS fs' initPath).isSome := by
  obtain ⟨fs1, fs2, h1, h2, h3⟩ := create_inv h
  have hs2 := writeFileIfAbsent_some_self h2
  cases he : lookupFS fs2 initPath with
  | none => rw [he] at hs2; simp at hs2
  | some e =>
    have : lookupFS fs' initPath = some e := by
      rw [write_text_ne h3 (by decide)]; exact he
    rw [this]; rfl

/-- Each listed directory is among its own parent-chain prefixes. -/
theorem directories_mem_self : ∀ d ∈ directories, d ∈ pathPrefixes d := by decide

/-- A run on a state that already has all directories, all markers, the stub
and the template README returns that state unchanged. -/
theorem create_noop {fs : FS}
    (hdirs : ∀ d ∈ directories, ∀ r ∈ pathPrefixes d, lookupFS fs r = some Entry.dir)
    (hgks : ∀ d ∈ directories, (lookupFS fs (d ++ [".gitkeep"])).isSome)
    (hinit : (lookupFS fs initPath).isSome)
    (hreadme : lookupFS fs readmePath = some (Entry.file readmeContent)) :
    create_project_structure fs = Except.ok fs := by
  have h1 : scaffoldDirs fs directories = Except.ok fs :=
    scaffoldDirs_noop (fun d hd => ⟨hdirs d hd, hgks d hd⟩)
  have h2 : writeFileIfAbsent fs initPath initContent = Except.ok fs :=
    writeFileIfAbsent_noop hinit
  have h3 : write_text fs readmePath readmeContent = Except.ok fs :=
    write_text_rewrite_self hreadme
  simp only [create_project_structure, h1, h2]
  exact h3

/-! ## The claims -/

/-- Claim C1: for every base path on which one invocation of
`create_project_structure` succeeds, afterwards all six directories of the
fixed list exist as directories under the base path, and the intermediate
parents `data` and `results` exist as directories as well. -/
theorem claim_C1 (fs fs' : FS) (h : create_project_structure fs = Except.ok fs') :
    (∀ d ∈ directories, lookupFS fs' d = some Entry.dir) ∧
    lookupFS fs' ["data"] = some Entry.dir ∧
    lookupFS fs' ["results"] = some Entry.dir := by
  refine ⟨fun d hd => create_dirs h d hd d (directories_mem_self d hd), ?_, ?_⟩
  · exact create_dirs h ["data", "raw"] (by decide) ["data"] (by decide)
  · exact create_dirs h ["results", "figures"] (by decide) ["results"] (by decide)

/-- Witness for C1: the run on an empty base directory. -/
theorem claim_C1_witness :
    lookupFS scaffoldedFS ["notebooks"] = some Entry.dir ∧
    lookupFS scaffoldedFS ["data"] = some Entry.dir ∧
    lookupFS scaffoldedFS ["results"] = some Entry.dir := by
  have hc := claim_C1 [] scaffoldedFS (by rfl)
  exact ⟨hc.1 ["notebooks"] (by decide), hc.2.1, hc.2.2⟩

/-- Claim C2: running `create_project_structure` a second time on the state a
first successful run produced raises no error and returns exactly the same
state (same directories and markers, stub content kept, README content
unchanged because it is rewritten with the identical template). -/
theorem claim_C2 (fs fs1 : FS) (h : create_project_structure fs = Except.ok fs1) :
    create_project_structure fs1 = Except.ok fs1 :=
  create_noop (create_dirs h) (create_gk_some h) (create_init_some h) (create_readme h)

/-- Witness for C2: the state scaffolded from an empty base directory is a
fixed point. -/
theorem claim_C2_witness :
    create_project_structure scaffoldedFS = Except.ok scaffoldedFS :=
  claim_C2 [] scaffoldedFS (by rfl)

/-- Counterexample to C3 as stated: on a writable base path that already
holds a non-empty `data/raw/.gitkeep`, one successful invocation leaves that
marker with its old one-byte content, so not every directory contains a
zero-length `.gitkeep` afterwards. -/
theorem claim_C3_counterexample :
    create_project_structure preMarkerFS = Except.ok preMarkerOutFS ∧
    lookupFS preMarkerOutFS ["data", "raw", ".gitkeep"] = some (Entry.file "x") ∧
    Entry.file "x" ≠ Entry.file "" :=
  ⟨rfl, rfl, by decide⟩

/-- Claim C3 (amended): after one successful invocation, each of the six
directories contains an entry named `.gitkeep`, and any such marker that was
absent before the invocation is a zero-length file. -/
theorem claim_C3 (fs fs' : FS) (h : create_project_structure fs = Except.ok fs') :
    ∀ d ∈ directories,
      (lookupFS fs' (d ++ [".gitkeep"])).isSome ∧
      (lookupFS fs (d ++ [".gitkeep"]) = none →
        lookupFS fs' (d ++ [".gitkeep"]) = some (Entry.file "")) :=
  fun d hd => ⟨create_gk_some h d hd, create_gk_created h d hd⟩

/-- Witness for C3 (amended): the run on an empty base directory. -/
theorem claim_C3_witness :
    lookupFS scaffoldedFS ["notebooks", ".gitkeep"] = some (Entry.file "") := by
  have hc := claim_C3 [] scaffoldedFS (by rfl) ["notebooks"] (by decide)
  exact hc.2 (by rfl)

/-- Claim C4: for every directory in the fixed list, the `.gitkeep` marker is
created (as an empty file) exactly when it does not already exist; an
existing marker entry, whatever it holds, is kept untouched. -/
theorem claim_C4 (fs fs' : FS) (h : create_project_structure fs = Except.ok fs') :
    ∀ d ∈ directories,
      (∀ e : Entry, lookupFS fs (d ++ [".gitkeep"]) = some e →
        lookupFS fs' (d ++ [".gitkeep"]) = some e) ∧
      (lookupFS fs (d ++ [".gitkeep"]) = none →
        lookupFS fs' (d ++ [".gitkeep"]) = some (Entry.file "")) := by
  intro d hd
  refine ⟨?_, create_gk_created h d hd⟩
  intro e he
  fin_cases hd <;> exact create_pres_entry h (by decide) he

/-- Witness for C4: the pre-existing one-byte marker survives the run. -/
theorem claim_C4_witness :
    lookupFS preMarkerOutFS ["data", "raw", ".gitkeep"] = some (Entry.file "x") := by
  have hc := claim_C4 preMarkerFS preMarkerOutFS (by rfl) ["data", "raw"] (by decide)
  exact hc.1 (Entry.file "x") (by rfl)

/-- Claim C5: a pre-existing `src/__init__.py` keeps its entry byte-for-byte
through a successful invocation; an absent one is created with the fixed
multi-line stub string. -/
theorem claim_C5 (fs fs' : FS) (h : create_project_structure fs = Except.ok fs') :
    (∀ e : Entry, lookupFS fs initPath = some e → lookupFS fs' initPath = some e) ∧
    (lookupFS fs initPath = none →
      lookupFS fs' initPath = some (Entry.file initContent)) :=
  ⟨fun _ he => create_pres_entry h (by decide) he, create_init_created h⟩

/-- Witness for C5: on an empty base directory the stub is created with the
fixed content. -/
theorem claim_C5_witness :
    lookupFS scaffoldedFS initPath = some (Entry.file initContent) :=
  (claim_C5 [] scaffoldedFS (by rfl)).2 (by rfl)

/-- Claim C6: whatever the base path held before, after one successful
invocation `README.md` holds exactly the fixed template string; the write is
unconditional, with no existence check. -/
theorem claim_C6 (fs fs' : FS) (h : create_project_structure fs = Except.ok fs') :
    lookupFS fs' readmePath = some (Entry.file readmeContent) :=
  create_readme h

/-- Witness for C6: the run on an empty base directory. -/
theorem claim_C6_witness :
    lookupFS scaffoldedFS readmePath = some (Entry.file readmeContent) :=
  claim_C6 [] scaffoldedFS (by rfl)

/-- Claim C7: with a plain file occupying `notebooks`, the invocation stops
with a filesystem error instead of succeeding silently, and the directories
and markers created before the failing step (the whole `data` subtree) are
still present in the state at the moment of failure — no rollback. -/
theorem claim_C7 :
    create_project_structure collisionFS =
      Except.error (FsError.collision ["notebooks"], collisionPartialFS) ∧
    lookupFS collisionPartialFS ["data"] = some Entry.dir ∧
    lookupFS collisionPartialFS ["data", "raw"] = some Entry.dir ∧
    lookupFS collisionPartialFS ["data", "raw", ".gitkeep"] = some (Entry.file "") ∧
    lookupFS collisionPartialFS ["data", "processed"] = some Entry.dir ∧
    lookupFS collisionPartialFS ["data", "processed", ".gitkeep"] = some (Entry.file "") :=
  ⟨rfl, rfl, rfl, rfl, rfl, rfl⟩

/-- Claim C8: on an empty base directory, one invocation produces exactly the
six subdirectories with their intermediate parents, one `.gitkeep` in each,
`src/__init__.py` with the stub content, and `README.md` with the template —
and nothing else. -/
theorem claim_C8 : create_project_structure ([] : FS) = Except.ok scaffoldedFS := rfl

/-- Claim C9: `create_project_structure` is deterministic — two runs started
from identical initial filesystem states produce identical results. -/
theorem claim_C9 (fs1 fs2 : FS) (h : fs1 = fs2) :
    create_project_structure fs1 = create_project_structure fs2 := by rw [h]

/-- Witness for C9 at the empty base directory. -/
theorem claim_C9_witness :
    create_project_structure ([] : FS) = create_project_structure ([] : FS) :=
  claim_C9 [] [] rfl

/-- Claim C10: preservation of `src/__init__.py` is decided by existence
alone — a pre-existing zero-byte stub stays empty and is not filled with the
default content. -/
theorem claim_C10 :
    create_project_structure emptyInitFS = Except.ok emptyInitOutFS ∧
    lookupFS emptyInitOutFS ["src", "__init__.py"] = some (Entry.file "") ∧
    Entry.file "" ≠ Entry.file initContent :=
  ⟨rfl, rfl, by decide⟩

end ProjectSetup
